import Mathlib

/-!
Shallow embedding of the string-processing core of the Useful-Websites
repository: the Wi-Fi payload codec from the generator
(src/QR-code Genrator/src/utils/wifi.ts), the payload classifier from the
reader (src/QR-code Reader/src/components/QRReader.tsx) and the content
validator (src/QR-code Reader/src/utils/qrcode.ts). JavaScript strings are
modelled as lists of characters.
-/

/-- Converts a Lean string literal into the list-of-characters model. -/
def s2l (s : String) : List Char := s.data

/-- The JavaScript whitespace set, used by String.prototype.trim and by the
regex whitespace class. -/
def isJsWhitespace (c : Char) : Bool :=
  c == ' ' || c == '\t' || c == '\n' || c == '\r' ||
  c.toNat == 11 || c.toNat == 12 || c.toNat == 160 || c.toNat == 0x1680 ||
  (0x2000 ≤ c.toNat && c.toNat ≤ 0x200A) || c.toNat == 0x2028 ||
  c.toNat == 0x2029 || c.toNat == 0x202F || c.toNat == 0x205F ||
  c.toNat == 0x3000 || c.toNat == 0xFEFF

/-- JavaScript String.prototype.trim: whitespace removed from both ends. -/
def jsTrim (s : List Char) : List Char :=
  ((s.dropWhile isJsWhitespace).reverse.dropWhile isJsWhitespace).reverse

/-- The security union type of WiFiConfig in wifi.ts. -/
inductive Security where
  | WPA
  | WEP
  | nopass
deriving DecidableEq

/-- The WiFiConfig interface of wifi.ts. -/
structure WiFiConfig where
  ssid : List Char
  password : List Char
  security : Security
  hidden : Bool
deriving DecidableEq

/-- The string written for each security value in the payload template. -/
def securityStr : Security → List Char
  | .WPA => ['W', 'P', 'A']
  | .WEP => ['W', 'E', 'P']
  | .nopass => ['n', 'o', 'p', 'a', 's', 's']

/-- One global single-character replacement, as a JavaScript replace with a
one-character regex and a fixed replacement string. -/
def replaceChar (t : Char) (r : List Char) : List Char → List Char
  | [] => []
  | c :: cs => (if c = t then r else [c]) ++ replaceChar t r cs

/-- escapeWiFiString from wifi.ts: backslash, comma, semicolon, quote and
colon are each escaped with a leading backslash, in that order. -/
def escapeWiFiString (s : List Char) : List Char :=
  replaceChar ':' ['\\', ':']
    (replaceChar '"' ['\\', '"']
      (replaceChar ';' ['\\', ';']
        (replaceChar ',' ['\\', ',']
          (replaceChar '\\' ['\\', '\\'] s))))

/-- generateWiFiPayload from wifi.ts. -/
def generateWiFiPayload (cfg : WiFiConfig) : List Char :=
  ['W', 'I', 'F', 'I', ':', 'T', ':'] ++ securityStr cfg.security ++
  [';', 'S', ':'] ++ escapeWiFiString cfg.ssid ++
  [';', 'P', ':'] ++ escapeWiFiString cfg.password ++
  [';', 'H', ':'] ++ (if cfg.hidden then ['t', 'r', 'u', 'e'] else ['f', 'a', 'l', 's', 'e']) ++
  [';', ';']

/-- The isValid and errors record returned by both validators. -/
structure ValidationResult where
  isValid : Bool
  errors : List (List Char)
deriving DecidableEq

/-- validateWiFiConfig from wifi.ts: four independent checks push their
messages in order; the result is valid when no message was pushed. -/
def validateWiFiConfig (cfg : WiFiConfig) : ValidationResult :=
  let errors : List (List Char) :=
    (if jsTrim cfg.ssid = [] then [s2l "SSID is required"] else []) ++
    (if 32 < cfg.ssid.length then [s2l "SSID cannot exceed 32 characters"] else []) ++
    (if cfg.security ≠ Security.nopass ∧ cfg.password = [] then
      [s2l "Password is required for secured networks"] else []) ++
    (if cfg.password ≠ [] ∧ 63 < cfg.password.length then
      [s2l "Password cannot exceed 63 characters"] else [])
  { isValid := errors.length == 0, errors := errors }

/-- validateQRContent from qrcode.ts: empty-after-trim and over-2000-character
checks, valid when no message was pushed. -/
def validateQRContent (content : List Char) : ValidationResult :=
  let errors : List (List Char) :=
    (if jsTrim content = [] then [s2l "Content cannot be empty"] else []) ++
    (if 2000 < content.length then
      [s2l "Content is too long (maximum 2000 characters)"] else [])
  { isValid := errors.length == 0, errors := errors }

/-- ASCII lowercasing, the canonicalisation a case-insensitive JavaScript
regex applies to an ASCII pattern letter. -/
def jsLower (c : Char) : Char :=
  if 'A' ≤ c ∧ c ≤ 'Z' then Char.ofNat (c.toNat + 32) else c

/-- Case-insensitive anchored test against a lowercase pattern at the start
of the input, the meaning of an anchored case-insensitive literal regex. -/
def ciPre : List Char → List Char → Bool
  | [], _ => true
  | _ :: _, [] => false
  | p :: ps, c :: cs => (jsLower c == p) && ciPre ps cs

/-- Case-sensitive literal test at the start of the input, the meaning of
String.prototype.startsWith. -/
def startsWithL : List Char → List Char → Bool
  | [], _ => true
  | _ :: _, [] => false
  | p :: ps, c :: cs => (c == p) && startsWithL ps cs

/-- The URL test of parseQRData: anchored case-insensitive match of
http://, https:// or www. at the start. -/
def urlTest (s : List Char) : Bool :=
  ciPre (s2l "https://") s || ciPre (s2l "http://") s || ciPre (s2l "www.") s

/-- Maximal run of characters other than a semicolon, the greedy match of
the bracketed class excluding semicolons. -/
def takeUntilSemi : List Char → List Char
  | [] => []
  | c :: cs => if c = ';' then [] else c :: takeUntilSemi cs

/-- Rest of the input from the first semicolon on, empty when there is no
semicolon. -/
def dropUntilSemi : List Char → List Char
  | [] => []
  | c :: cs => if c = ';' then c :: cs else dropUntilSemi cs

/-- Consumes an exact literal at the start of the input, returning the rest
on success. -/
def dropLit : List Char → List Char → Option (List Char)
  | [], s => some s
  | _ :: _, [] => none
  | p :: ps, c :: cs => if c = p then dropLit ps cs else none

/-- One attempt of the Wi-Fi capture regex of parseQRData at the current
position: the literal WIFI:T:, then four greedy semicolon-free capture
groups separated by the literals ;S: ;P: ;H: and a closing semicolon.
Each greedy group is forced to stop at the first semicolon, so the regex
is deterministic at a fixed start position. -/
def wifiCaptureAt (s : List Char) : Option (List Char × List Char × List Char × List Char) :=
  (dropLit ['W', 'I', 'F', 'I', ':', 'T', ':'] s).bind fun r0 =>
    (dropLit [';', 'S', ':'] (dropUntilSemi r0)).bind fun r1 =>
      (dropLit [';', 'P', ':'] (dropUntilSemi r1)).bind fun r2 =>
        (dropLit [';', 'H', ':'] (dropUntilSemi r2)).bind fun r3 =>
          (dropLit [';'] (dropUntilSemi r3)).map fun _ =>
            (takeUntilSemi r0, takeUntilSemi r1, takeUntilSemi r2, takeUntilSemi r3)

/-- Unanchored search of the Wi-Fi capture regex: the leftmost start
position at which the capture succeeds wins, as in JavaScript match. -/
def wifiSearch : List Char → Option (List Char × List Char × List Char × List Char)
  | [] => wifiCaptureAt []
  | c :: cs =>
    match wifiCaptureAt (c :: cs) with
    | some g => some g
    | none => wifiSearch cs

/-- The WiFiData interface of QRReader.tsx. -/
structure WiFiData where
  ssid : List Char
  password : List Char
  security : List Char
  hidden : Bool
deriving DecidableEq

/-- The Wi-Fi branch of parseQRData: requires the WIFI: start, then runs the
capture regex; group one defaults to nopass when empty, groups two and three
default to the empty string, hidden is the comparison with the literal true. -/
def wifiParse (s : List Char) : Option WiFiData :=
  if startsWithL ['W', 'I', 'F', 'I', ':'] s then
    match wifiSearch s with
    | some (g1, g2, g3, g4) =>
      some { ssid := if g2 = [] then [] else g2
           , password := if g3 = [] then [] else g3
           , security := if g1 = [] then s2l "nopass" else g1
           , hidden := decide (g4 = ['t', 'r', 'u', 'e']) }
    | none => none
  else none

/-- The Wi-Fi test of parseQRData as a boolean. -/
def wifiTest (s : List Char) : Bool := (wifiParse s).isSome

/-- A character allowed in the email regex classes: not whitespace and not
an at sign. -/
def emailChr (c : Char) : Bool := !(isJsWhitespace c) && c != '@'

/-- The anchored email shape regex of parseQRData: a nonempty run of
class characters, an at sign, then a nonempty run, a dot and a nonempty run
reaching the end. The part after the at sign matches exactly when it is all
class characters and contains an interior dot. -/
def emailShape (s : List Char) : Bool :=
  match s.dropWhile emailChr with
  | '@' :: rest =>
    !(s.takeWhile emailChr).isEmpty && rest.all emailChr &&
      (rest.drop 1).dropLast.contains '.'
  | _ => false

/-- The email test of parseQRData. -/
def emailTest (s : List Char) : Bool :=
  startsWithL (s2l "mailto:") s || emailShape s

/-- A character of the phone regex class: digits, hyphen, parentheses and
whitespace. -/
def isPhoneChar (c : Char) : Bool :=
  c.isDigit || c == '-' || c == '(' || c == ')' || isJsWhitespace c

/-- The anchored phone regex of parseQRData: an optional leading plus sign,
then a nonempty run of phone class characters reaching the end. -/
def phoneShape (s : List Char) : Bool :=
  match s with
  | '+' :: rest => !rest.isEmpty && rest.all isPhoneChar
  | _ => !s.isEmpty && s.all isPhoneChar

/-- The phone test of parseQRData. -/
def phoneTest (s : List Char) : Bool :=
  startsWithL (s2l "tel:") s || phoneShape s

/-- The SMS test of parseQRData. -/
def smsTest (s : List Char) : Bool :=
  startsWithL (s2l "sms:") s || startsWithL (s2l "smsto:") s

/-- The geo test of parseQRData. -/
def geoTest (s : List Char) : Bool := startsWithL (s2l "geo:") s

/-- The vCard test of parseQRData. -/
def vcardTest (s : List Char) : Bool := startsWithL (s2l "BEGIN:VCARD") s

/-- The calendar event test of parseQRData. -/
def eventTest (s : List Char) : Bool := startsWithL (s2l "BEGIN:VEVENT") s

/-- The category union of the QRResult interface in QRReader.tsx. -/
inductive QRType where
  | url
  | text
  | wifi
  | email
  | phone
  | sms
  | geo
  | vcard
  | event
  | unknown
deriving DecidableEq

/-- The QRResult interface of QRReader.tsx. -/
structure QRResult where
  data : List Char
  type : QRType
  parsed : Option WiFiData
deriving DecidableEq

/-- The tests of parseQRData that run after the Wi-Fi test, in source
order, ending in the plain text default. -/
def classifyTail (data : List Char) : QRResult :=
  if emailTest data then ⟨data, QRType.email, none⟩
  else if phoneTest data then ⟨data, QRType.phone, none⟩
  else if smsTest data then ⟨data, QRType.sms, none⟩
  else if geoTest data then ⟨data, QRType.geo, none⟩
  else if vcardTest data then ⟨data, QRType.vcard, none⟩
  else if eventTest data then ⟨data, QRType.event, none⟩
  else ⟨data, QRType.text, none⟩

/-- parseQRData from QRReader.tsx: URL first, then the Wi-Fi branch, then
the remaining tests in source order. -/
def parseQRData (data : List Char) : QRResult :=
  if urlTest data then ⟨data, QRType.url, none⟩
  else
    match wifiParse data with
    | some w => ⟨data, QRType.wifi, some w⟩
    | none => classifyTail data

/-- The five characters the encoder escapes. -/
def needsEscape (c : Char) : Bool :=
  c == '\\' || c == ',' || c == ';' || c == '"' || c == ':'

/-- Spec-side escaping transform, written from the spec wording: backslash
to double backslash, then comma, semicolon, quote and colon each get a
leading backslash, each a global replace over the prior result. For the
refinement claim C3 it is compared with escapeWiFiString. -/
def escapeSpec (s : List Char) : List Char :=
  replaceChar ':' ['\\', ':']
    (replaceChar '"' ['\\', '"']
      (replaceChar ';' ['\\', ';']
        (replaceChar ',' ['\\', ',']
          (replaceChar '\\' ['\\', '\\'] s))))

/-- Spec-side encoder, written from the spec wording of the payload
template. For the refinement claim C3 it is compared with
generateWiFiPayload. -/
def encodeSpec (cfg : WiFiConfig) : List Char :=
  s2l "WIFI:T:" ++ securityStr cfg.security ++ s2l ";S:" ++
  escapeSpec cfg.ssid ++ s2l ";P:" ++ escapeSpec cfg.password ++
  s2l ";H:" ++ (if cfg.hidden then s2l "true" else s2l "false") ++ s2l ";;"

/-- Spec-side error list of the Wi-Fi validator, written from the claim
wording of the four independent checks; the fourth check is stated without
the nonempty guard. For claim C4 it is compared with validateWiFiConfig. -/
def validateSpecErrors (cfg : WiFiConfig) : List (List Char) :=
  (if jsTrim cfg.ssid = [] then [s2l "SSID is required"] else []) ++
  (if 32 < cfg.ssid.length then [s2l "SSID cannot exceed 32 characters"] else []) ++
  (if cfg.security ≠ Security.nopass ∧ cfg.password = [] then
    [s2l "Password is required for secured networks"] else []) ++
  (if 63 < cfg.password.length then
    [s2l "Password cannot exceed 63 characters"] else [])

/-- Consuming a literal from the concatenation of that literal and a rest
succeeds and returns the rest. -/
theorem dropLit_self (p t : List Char) : dropLit p (p ++ t) = some t := by
  induction p with
  | nil => rfl
  | cons a as ih => simp [dropLit, ih]

/-- A successful startsWithL test exposes the input as the tested literal
followed by a rest. -/
theorem startsWithL_shape {p s : List Char} (h : startsWithL p s = true) :
    ∃ t, s = p ++ t := by
  induction p generalizing s with
  | nil => exact ⟨s, rfl⟩
  | cons a as ih =>
    cases s with
    | nil => simp [startsWithL] at h
    | cons c cs =>
      simp only [startsWithL, Bool.and_eq_true, beq_iff_eq] at h
      obtain ⟨t, ht⟩ := ih h.2
      exact ⟨t, by simp [h.1, ht]⟩

/-- startsWithL accepts any extension of the tested literal. -/
theorem startsWithL_self (p t : List Char) : startsWithL p (p ++ t) = true := by
  induction p with
  | nil => rfl
  | cons a as ih => simp [startsWithL, ih]

/-- The greedy semicolon-free run over a semicolon-free block followed by a
semicolon is exactly that block. -/
theorem takeUntil_eq (A t : List Char) (h : ∀ c ∈ A, c ≠ ';') :
    takeUntilSemi (A ++ ';' :: t) = A := by
  induction A with
  | nil => simp [takeUntilSemi]
  | cons a as ih =>
    have ha : a ≠ ';' := h a (by simp)
    simp only [List.cons_append, takeUntilSemi, if_neg ha]
    exact congrArg (a :: .) (ih fun c hc => h c (by simp [hc]))

/-- Skipping to the first semicolon over a semicolon-free block lands on the
semicolon that follows the block. -/
theorem dropUntil_eq (A t : List Char) (h : ∀ c ∈ A, c ≠ ';') :
    dropUntilSemi (A ++ ';' :: t) = ';' :: t := by
  induction A with
  | nil => simp [dropUntilSemi]
  | cons a as ih =>
    have ha : a ≠ ';' := h a (by simp)
    simp only [List.cons_append, dropUntilSemi, if_neg ha]
    exact ih fun c hc => h c (by simp [hc])

/-- A single-character global replacement leaves a string without the target
character unchanged. -/
theorem replaceChar_id (t : Char) (r : List Char) (s : List Char)
    (h : ∀ c ∈ s, c ≠ t) : replaceChar t r s = s := by
  induction s with
  | nil => rfl
  | cons a as ih =>
    have ha : a ≠ t := h a (by simp)
    simp only [replaceChar, if_neg ha]
    rw [ih fun c hc => h c (by simp [hc])]
    rfl

/-- The escaping transform leaves a string without any of the five escaped
characters unchanged. -/
theorem escape_id (s : List Char) (h : ∀ c ∈ s, needsEscape c = false) :
    escapeWiFiString s = s := by
  have h1 : ∀ c ∈ s, c ≠ '\\' := by
    intro c hc; have := h c hc; simp [needsEscape] at this; tauto
  have h2 : ∀ c ∈ s, c ≠ ',' := by
    intro c hc; have := h c hc; simp [needsEscape] at this; tauto
  have h3 : ∀ c ∈ s, c ≠ ';' := by
    intro c hc; have := h c hc; simp [needsEscape] at this; tauto
  have h4 : ∀ c ∈ s, c ≠ '"' := by
    intro c hc; have := h c hc; simp [needsEscape] at this; tauto
  have h5 : ∀ c ∈ s, c ≠ ':' := by
    intro c hc; have := h c hc; simp [needsEscape] at this; tauto
  unfold escapeWiFiString
  rw [replaceChar_id _ _ _ h1, replaceChar_id _ _ _ h2, replaceChar_id _ _ _ h3,
    replaceChar_id _ _ _ h4, replaceChar_id _ _ _ h5]

/-- The empty-string default of the JavaScript or-operator is the identity
on strings. -/
theorem list_if_id (l : List Char) : (if l = [] then ([] : List Char) else l) = l := by
  by_cases h : l = [] <;> simp [h]

/-- On a payload assembled from semicolon-free blocks the capture succeeds
at position zero and returns the four blocks. -/
theorem wifiCaptureAt_build (sec ss pw hid : List Char)
    (h1 : ∀ c ∈ sec, c ≠ ';') (h2 : ∀ c ∈ ss, c ≠ ';')
    (h3 : ∀ c ∈ pw, c ≠ ';') (h4 : ∀ c ∈ hid, c ≠ ';') :
    wifiCaptureAt ('W' :: 'I' :: 'F' :: 'I' :: ':' :: 'T' :: ':' ::
      (sec ++ ';' :: 'S' :: ':' :: (ss ++ ';' :: 'P' :: ':' ::
        (pw ++ ';' :: 'H' :: ':' :: (hid ++ [';', ';']))))) =
      some (sec, ss, pw, hid) := by
  have e0 : ∀ t : List Char,
      dropLit ['W', 'I', 'F', 'I', ':', 'T', ':'] ('W' :: 'I' :: 'F' :: 'I' :: ':' :: 'T' :: ':' :: t) = some t :=
    fun t => rfl
  have eS : ∀ t : List Char, dropLit [';', 'S', ':'] (';' :: 'S' :: ':' :: t) = some t :=
    fun t => rfl
  have eP : ∀ t : List Char, dropLit [';', 'P', ':'] (';' :: 'P' :: ':' :: t) = some t :=
    fun t => rfl
  have eH : ∀ t : List Char, dropLit [';', 'H', ':'] (';' :: 'H' :: ':' :: t) = some t :=
    fun t => rfl
  have eE : dropLit [';'] (';' :: [';']) = some [';'] := rfl
  unfold wifiCaptureAt
  rw [e0]
  rw [Option.some_bind, dropUntil_eq _ _ h1, eS, Option.some_bind,
    dropUntil_eq _ _ h2, eP, Option.some_bind, dropUntil_eq _ _ h3, eH,
    Option.some_bind]
  rw [show hid ++ [';', ';'] = hid ++ ';' :: [';'] from rfl, dropUntil_eq _ _ h4, eE]
  simp [takeUntil_eq _ _ h1, takeUntil_eq _ _ h2, takeUntil_eq _ _ h3, takeUntil_eq _ _ h4]

/-- The literal WIFI: marker is accepted at the start of any payload that
begins with those five characters. -/
theorem startsWith_wifiMark (t : List Char) :
    startsWithL ['W', 'I', 'F', 'I', ':'] ('W' :: 'I' :: 'F' :: 'I' :: ':' :: t) = true := rfl

/-- The unanchored search returns the capture found at position zero. -/
theorem wifiSearch_head {s : List Char} {g : List Char × List Char × List Char × List Char}
    (h : wifiCaptureAt s = some g) : wifiSearch s = some g := by
  cases s with
  | nil => simpa [wifiSearch] using h
  | cons c cs => simp [wifiSearch, h]

/-- No input starting with the two characters W I passes the URL test. -/
theorem urlTest_wifi (rest : List Char) : urlTest ('W' :: 'I' :: rest) = false := by
  have e1 : (jsLower 'W' == 'h') = false := by decide
  have e2 : (jsLower 'W' == 'w') = true := by decide
  have e3 : (jsLower 'I' == 'w') = false := by decide
  simp [urlTest, s2l, ciPre, e1, e2, e3]

/-- A failing Wi-Fi test means the Wi-Fi branch produced no parsed data. -/
theorem wifiTest_none {s : List Char} (h : wifiTest s = false) : wifiParse s = none := by
  unfold wifiTest at h
  cases hx : wifiParse s with
  | none => rfl
  | some w => rw [hx] at h; simp at h

/-- Claim C1 counterexample: the config with ssid a;b, empty password and
open security passes Validate, yet classifying its encoded payload gives
the plain text category rather than Wi-Fi, because the escaped semicolon in
the ssid makes the capture regex fail. This refutes the claim as stated. -/
theorem claimC1_counterexample :
    (validateWiFiConfig ⟨s2l "a;b", [], Security.nopass, false⟩).isValid = true ∧
    (parseQRData (generateWiFiPayload ⟨s2l "a;b", [], Security.nopass, false⟩)).type =
      QRType.text := by decide

/-- Claim C1 (amended): for every WiFiConfig that passes Validate and whose
ssid and password both contain none of the five escaped characters,
classifying the encoded payload yields category Wi-Fi and the extracted
ssid, password, security and hidden fields equal the original fields. -/
theorem claimC1_roundtrip_amended (cfg : WiFiConfig)
    (hv : (validateWiFiConfig cfg).isValid = true)
    (hs : ∀ c ∈ cfg.ssid, needsEscape c = false)
    (hp : ∀ c ∈ cfg.password, needsEscape c = false) :
    parseQRData (generateWiFiPayload cfg) =
      { data := generateWiFiPayload cfg, type := QRType.wifi,
        parsed := some { ssid := cfg.ssid, password := cfg.password,
                         security := securityStr cfg.security, hidden := cfg.hidden } } := by
  have hes : escapeWiFiString cfg.ssid = cfg.ssid := escape_id _ hs
  have hep : escapeWiFiString cfg.password = cfg.password := escape_id _ hp
  have hsS : ∀ c ∈ cfg.ssid, c ≠ ';' := by
    intro c hc; have := hs c hc; simp [needsEscape] at this; tauto
  have hpS : ∀ c ∈ cfg.password, c ≠ ';' := by
    intro c hc; have := hp c hc; simp [needsEscape] at this; tauto
  have hsecS : ∀ c ∈ securityStr cfg.security, c ≠ ';' := by
    cases cfg.security <;> decide
  have hhidS : ∀ c ∈ (if cfg.hidden then ['t', 'r', 'u', 'e'] else ['f', 'a', 'l', 's', 'e']), c ≠ ';' := by
    cases cfg.hidden <;> decide
  have hpay : generateWiFiPayload cfg =
      'W' :: 'I' :: 'F' :: 'I' :: ':' :: 'T' :: ':' :: (securityStr cfg.security ++ ';' :: 'S' :: ':' ::
        (cfg.ssid ++ ';' :: 'P' :: ':' :: (cfg.password ++ ';' :: 'H' :: ':' ::
          ((if cfg.hidden then ['t', 'r', 'u', 'e'] else ['f', 'a', 'l', 's', 'e']) ++ [';', ';'])))) := by
    simp [generateWiFiPayload, hes, hep]
  have hcap := wifiCaptureAt_build (securityStr cfg.security) cfg.ssid cfg.password
    (if cfg.hidden then ['t', 'r', 'u', 'e'] else ['f', 'a', 'l', 's', 'e']) hsecS hsS hpS hhidS
  have hsearch := wifiSearch_head hcap
  have hsecne : securityStr cfg.security ≠ [] := by cases cfg.security <;> decide
  have hhid : (decide ((if cfg.hidden then ['t', 'r', 'u', 'e'] else ['f', 'a', 'l', 's', 'e']) =
      ['t', 'r', 'u', 'e'])) = cfg.hidden := by cases cfg.hidden <;> decide
  have hwp : wifiParse (generateWiFiPayload cfg) =
      some ⟨cfg.ssid, cfg.password, securityStr cfg.security, cfg.hidden⟩ := by
    rw [hpay]
    simp [wifiParse, startsWith_wifiMark, hsearch, list_if_id, hsecne, hhid]
  have hurl : urlTest (generateWiFiPayload cfg) = false := by
    rw [hpay]; exact urlTest_wifi _
  simp [parseQRData, hurl, hwp]

/-- Claim C1 witness: a concrete valid config without escaped characters
round-trips through encode and classify. -/
theorem claimC1_roundtrip_witness :
    parseQRData (generateWiFiPayload ⟨s2l "HomeNet", s2l "pw1234", Security.WPA, true⟩) =
      { data := generateWiFiPayload ⟨s2l "HomeNet", s2l "pw1234", Security.WPA, true⟩,
        type := QRType.wifi,
        parsed := some { ssid := s2l "HomeNet", password := s2l "pw1234",
                         security := securityStr Security.WPA, hidden := true } } :=
  claimC1_roundtrip_amended ⟨s2l "HomeNet", s2l "pw1234", Security.WPA, true⟩
    (by decide) (by decide) (by decide)

/-- Claim C2: every string accepted by the WIFI: test and the capture search
is classified Wi-Fi with security defaulting to nopass when the first group
is empty, ssid and password exactly the second and third groups, and hidden
true exactly when the fourth group is the literal true; when the capture
search fails the classifier falls through to the later tests; the concrete
example string is classified Wi-Fi with ssid MyNet, security nopass, empty
password and hidden false. -/
theorem claimC2_wifi_classify :
    (∀ s g1 g2 g3 g4, startsWithL ['W', 'I', 'F', 'I', ':'] s = true →
      wifiSearch s = some (g1, g2, g3, g4) →
      parseQRData s = ⟨s, QRType.wifi,
        some ⟨g2, g3, if g1 = [] then s2l "nopass" else g1, decide (g4 = ['t', 'r', 'u', 'e'])⟩⟩) ∧
    (∀ s, startsWithL ['W', 'I', 'F', 'I', ':'] s = true → wifiSearch s = none →
      parseQRData s = classifyTail s) ∧
    parseQRData (s2l "WIFI:T:nopass;S:MyNet;P:;H:false;;") =
      ⟨s2l "WIFI:T:nopass;S:MyNet;P:;H:false;;", QRType.wifi,
        some ⟨s2l "MyNet", [], s2l "nopass", false⟩⟩ := by
  refine ⟨?_, ?_, by decide⟩
  · intro s g1 g2 g3 g4 hpre hsearch
    obtain ⟨t, rfl⟩ := startsWithL_shape hpre
    simp only [List.cons_append, List.nil_append] at hsearch ⊢
    have hurl : urlTest ('W' :: 'I' :: 'F' :: 'I' :: ':' :: t) = false := urlTest_wifi _
    have hwp : wifiParse ('W' :: 'I' :: 'F' :: 'I' :: ':' :: t) =
        some ⟨g2, g3, if g1 = [] then s2l "nopass" else g1, decide (g4 = ['t', 'r', 'u', 'e'])⟩ := by
      simp [wifiParse, startsWith_wifiMark, hsearch, list_if_id]
    simp [parseQRData, hurl, hwp]
  · intro s hpre hns
    obtain ⟨t, rfl⟩ := startsWithL_shape hpre
    simp only [List.cons_append, List.nil_append] at hns ⊢
    have hurl : urlTest ('W' :: 'I' :: 'F' :: 'I' :: ':' :: t) = false := urlTest_wifi _
    have hwp : wifiParse ('W' :: 'I' :: 'F' :: 'I' :: ':' :: t) = none := by
      simp [wifiParse, startsWith_wifiMark, hns]
    simp [parseQRData, hurl, hwp]

/-- Claim C2 witness: a concrete capture instance of the universal part. -/
theorem claimC2_witness :
    parseQRData (s2l "WIFI:T:WEP;S:Cafe;P:abc;H:true;") =
      ⟨s2l "WIFI:T:WEP;S:Cafe;P:abc;H:true;", QRType.wifi,
        some ⟨s2l "Cafe", s2l "abc",
          if (s2l "WEP") = [] then s2l "nopass" else s2l "WEP",
          decide ((s2l "true") = ['t', 'r', 'u', 'e'])⟩⟩ :=
  claimC2_wifi_classify.1 (s2l "WIFI:T:WEP;S:Cafe;P:abc;H:true;")
    (s2l "WEP") (s2l "Cafe") (s2l "abc") (s2l "true") (by decide) (by decide)

/-- Claim C3 counterexample: the encoded example string has 33 characters,
not 29 as the claim counts it. -/
theorem claimC3_counterexample :
    (generateWiFiPayload ⟨s2l "a;b", ['p', '\\', 'q'], Security.WPA, true⟩).length = 33 ∧
    (generateWiFiPayload ⟨s2l "a;b", ['p', '\\', 'q'], Security.WPA, true⟩).length ≠ 29 := by
  decide

/-- Claim C3 (amended): the encoder equals the spec-worded template with the
five escape replacements applied in the stated order, and the example
config encodes to the expected 33-character string. -/
theorem claimC3_encode_amended :
    (∀ cfg : WiFiConfig, generateWiFiPayload cfg = encodeSpec cfg) ∧
    generateWiFiPayload ⟨s2l "a;b", ['p', '\\', 'q'], Security.WPA, true⟩ =
      s2l "WIFI:T:WPA;S:a\\;b;P:p\\\\q;H:true;;" ∧
    (s2l "WIFI:T:WPA;S:a\\;b;P:p\\\\q;H:true;;").length = 33 :=
  ⟨fun _ => rfl, by decide, by decide⟩

/-- Claim C4: the Wi-Fi validator reports exactly the messages of the four
independent checks as the claim states them, validity is emptiness of the
error list, and the 33-character ssid example yields only the ssid length
message. -/
theorem claimC4_validate :
    (∀ cfg : WiFiConfig, (validateWiFiConfig cfg).errors = validateSpecErrors cfg ∧
      ((validateWiFiConfig cfg).isValid = true ↔ (validateWiFiConfig cfg).errors = [])) ∧
    validateWiFiConfig ⟨List.replicate 33 'x', s2l "ok", Security.nopass, false⟩ =
      ⟨false, [s2l "SSID cannot exceed 32 characters"]⟩ := by
  refine ⟨fun cfg => ⟨?_, ?_⟩, by decide⟩
  · by_cases h : 63 < cfg.password.length
    · have hne : cfg.password ≠ [] := by
        intro e; rw [e] at h; simp at h
      simp [validateWiFiConfig, validateSpecErrors, h, hne]
    · simp [validateWiFiConfig, validateSpecErrors, h]
  · simp [validateWiFiConfig, List.length_eq_zero]

/-- Claim C5 counterexample: the URL test and the email test both match the
same input, so the eight tests are not mutually exclusive. -/
theorem claimC5_counterexample :
    urlTest (s2l "www.a@b.cd") = true ∧ emailTest (s2l "www.a@b.cd") = true := by decide

/-- Claim C5 (amended): the pattern tests are not mutually exclusive; the
input matching both the URL and the email test is decided by the
first-match evaluation order and classified as URL. -/
theorem claimC5_order_amended :
    urlTest (s2l "www.a@b.cd") = true ∧ emailTest (s2l "www.a@b.cd") = true ∧
    parseQRData (s2l "www.a@b.cd") = ⟨s2l "www.a@b.cd", QRType.url, none⟩ := by decide

/-- Claim C6 counterexample: the string 1+1 consists only of characters the
claim allows in the phone class, is rejected by the three earlier tests,
yet is classified plain text, because the regex allows a plus sign only as
the first character. -/
theorem claimC6_counterexample :
    urlTest (s2l "1+1") = false ∧ wifiTest (s2l "1+1") = false ∧
    emailTest (s2l "1+1") = false ∧
    (∀ c ∈ s2l "1+1", c = '+' ∨ c.isDigit = true ∨ c = '-' ∨ c = '(' ∨ c = ')' ∨ c = ' ') ∧
    (parseQRData (s2l "1+1")).type ≠ QRType.phone := by decide

/-- Claim C6 (amended): for every input rejected by the URL, Wi-Fi and
email tests, the classifier returns the phone category exactly when the
input starts with tel: or consists of an optional leading plus sign
followed by a nonempty run of digits, hyphens, parentheses and whitespace. -/
theorem claimC6_phone_amended (s : List Char) (h1 : urlTest s = false)
    (h2 : wifiTest s = false) (h3 : emailTest s = false) :
    (parseQRData s).type = QRType.phone ↔ phoneTest s = true := by
  have hw := wifiTest_none h2
  by_cases hp : phoneTest s = true
  · simp [parseQRData, classifyTail, h1, hw, h3, hp]
  · simp only [Bool.not_eq_true] at hp
    simp [parseQRData, classifyTail, h1, hw, h3, hp]
    split_ifs <;> simp

/-- Claim C6 witness: a concrete tel: input is classified phone. -/
theorem claimC6_phone_witness : (parseQRData (s2l "tel:123")).type = QRType.phone :=
  (claimC6_phone_amended (s2l "tel:123") (by decide) (by decide) (by decide)).mpr (by decide)

/-- Claim C7: the classifier is a total function; when every category test
fails the result is the plain text category, and the concrete example is
classified plain text. -/
theorem claimC7_default_text :
    (∀ s : List Char, urlTest s = false → wifiTest s = false → emailTest s = false →
      phoneTest s = false → smsTest s = false → geoTest s = false → vcardTest s = false →
      eventTest s = false → parseQRData s = ⟨s, QRType.text, none⟩) ∧
    parseQRData (s2l "plain hello world") = ⟨s2l "plain hello world", QRType.text, none⟩ := by
  refine ⟨?_, by decide⟩
  intro s h1 h2 h3 h4 h5 h6 h7 h8
  have hw := wifiTest_none h2
  simp [parseQRData, classifyTail, h1, hw, h3, h4, h5, h6, h7, h8]

/-- Claim C7 witness: a concrete input failing every test is classified
plain text. -/
theorem claimC7_witness : parseQRData (s2l "zz") = ⟨s2l "zz", QRType.text, none⟩ :=
  claimC7_default_text.1 (s2l "zz") (by decide) (by decide) (by decide) (by decide)
    (by decide) (by decide) (by decide) (by decide)

/-- Claim C8: the classifier returns the input unchanged in the data field
and carries parsed data exactly when the category is Wi-Fi. -/
theorem claimC8_data_preserved (s : List Char) :
    (parseQRData s).data = s ∧
      ((parseQRData s).parsed.isSome = true ↔ (parseQRData s).type = QRType.wifi) := by
  unfold parseQRData classifyTail
  repeat' split
  all_goals simp

/-- Claim C9: the classifier never returns the unknown category. -/
theorem claimC9_no_unknown (s : List Char) : (parseQRData s).type ≠ QRType.unknown := by
  unfold parseQRData classifyTail
  repeat' split
  all_goals simp

/-- Claim C10: the content validator reports the emptiness message exactly
when the trimmed content is empty, the length message exactly when the
content exceeds 2000 characters, no other messages, and validity is
emptiness of the error list. -/
theorem claimC10_content_validate (s : List Char) :
    ((s2l "Content cannot be empty") ∈ (validateQRContent s).errors ↔ jsTrim s = []) ∧
    ((s2l "Content is too long (maximum 2000 characters)") ∈ (validateQRContent s).errors ↔
      2000 < s.length) ∧
    (∀ m ∈ (validateQRContent s).errors,
      m = s2l "Content cannot be empty" ∨ m = s2l "Content is too long (maximum 2000 characters)") ∧
    ((validateQRContent s).isValid = true ↔ (validateQRContent s).errors = []) := by
  have hne : s2l "Content cannot be empty" ≠ s2l "Content is too long (maximum 2000 characters)" := by
    decide
  have hne2 : s2l "Content is too long (maximum 2000 characters)" ≠ s2l "Content cannot be empty" := by
    decide
  by_cases h1 : jsTrim s = [] <;> by_cases h2 : 2000 < s.length <;>
    simp [validateQRContent, h1, h2, hne, hne2]

/-- Claim C10 witness: whitespace-only content reports the emptiness
message. -/
theorem claimC10_witness :
    (s2l "Content cannot be empty") ∈ (validateQRContent (s2l "  ")).errors :=
  ((claimC10_content_validate (s2l "  ")).1).mpr (by decide)
